import Mathlib

/-!
Verification of the mpxgen pipeline (`src/mpx_gen.c`) against its
natural-language specification.

The embedding models the observable behaviour of `mpx_gen.c`:

* the compile-time buffer constants `DATA_SIZE` / `OUTPUT_DATA_SIZE`;
* `postprocess` (the format stage) over exact rationals, with the C
  float-to-short assignment modelled as truncation toward zero;
* `terminate` (the teardown sequence) as a trace of release events;
* `generate_mpx` / `main` as trace-producing functions driven by an
  environment of acquisition outcomes and a per-iteration oracle of
  external call results (source read, converter call, sink write);
* the option-parsing loop of `main`, with `atoi` modelled faithfully
  (no validation, `0` on a string with no leading digits) and the
  alternate-frequency argument given as an exact count of tenths of a
  MHz (for every one-decimal input in the relevant band the C
  expression `(int)(10*atof(s))` yields exactly that count, so the
  integer model is exact).
-/

namespace MpxGen

/-- Compile-time constant `DATA_SIZE` (4096): number of float samples in
`mpx_data`, `rds_data` and `resample_out`. -/
def DATA_SIZE : Nat := 4096

/-- Compile-time constant `OUTPUT_DATA_SIZE` (8192): number of `short`
entries in `dev_out`. -/
def OUTPUT_DATA_SIZE : Nat := 8192

/-- The output-frame limit handed to the rate converter on every call:
`src_data.output_frames = OUTPUT_DATA_SIZE`. -/
def src_output_frames : Nat := OUTPUT_DATA_SIZE

/-- Capacity, in float samples, of `resample_out`, the buffer the converter
writes into (`src_data.data_out = resample_out`, declared `float resample_out[DATA_SIZE]`). -/
def resample_out_capacity : Nat := DATA_SIZE

/-- Number of interleaved two-channel frames `dev_out` can hold: it is
declared `short dev_out[OUTPUT_DATA_SIZE]` and each frame occupies two
`short` entries. -/
def dev_out_frame_capacity : Nat := OUTPUT_DATA_SIZE / 2

/-! ## The format stage (`postprocess`) -/

/-- The exact value `postprocess` computes for one sample before it is
stored into the `short` output buffer: `inbuf[i] /= 10; inbuf[i] *= 32767;
inbuf[i] *= (volume / 100)`. -/
def scaleSample (x volume : ℚ) : ℚ :=
  x / 10 * 32767 * (volume / 100)

/-- C conversion of a floating-point value to an integer type: truncation
toward zero. -/
def truncToShort (q : ℚ) : Int :=
  if 0 ≤ q then ⌊q⌋ else ⌈q⌉

/-- `postprocess`: each input sample is scaled and the resulting value is
written to both interleaved channel slots
(`outbuf[j] = outbuf[j+1] = inbuf[i]`). The output is the list of
(left, right) frames. -/
def postprocess (inbuf : List ℚ) (volume : ℚ) : List (Int × Int) :=
  inbuf.map fun x =>
    let v := truncToShort (scaleSample x volume)
    (v, v)

/-! ## Resources and event traces -/

/-- The four owned resources of the pipeline. -/
inductive Resource
  | source
  | control
  | sink
  | converter
deriving DecidableEq, Repr

/-- Observable events of a run of the program. -/
inductive Ev
  | acquire (r : Resource)
  | release (r : Resource)
  | shutdownSinkLib
  | logCtlOpenFail
  | pollCtl
  | play
  | exitWith (code : Nat)
deriving DecidableEq, Repr

/-- The sequence of release actions inside `terminate`, in source order:
`fm_mpx_close()`, `close_control_pipe()`, `ao_close(device)` (followed by
`ao_shutdown()`), `src_delete(src_state)`. -/
def terminateReleases : List Resource :=
  [.source, .control, .sink, .converter]

/-- The event trace of one full run of `terminate(num)`: the four release
actions, the library shutdown, then `exit(num)`. -/
def terminate (code : Nat) : List Ev :=
  [Ev.release .source, Ev.release .control, Ev.release .sink,
   Ev.shutdownSinkLib, Ev.release .converter, Ev.exitWith code]

/-- Release actions observed when a second termination request re-enters
`terminate` after the first `k` release actions of the first invocation
have already run: the handler has no guard, so the second invocation
performs the whole sequence again. -/
def reentrantReleases (k : Nat) : List Resource :=
  terminateReleases.take k ++ terminateReleases

/-! ## `generate_mpx` and `main` as trace functions -/

/-- Outcomes of the external acquisition calls made during startup, and
whether a control-pipe path was supplied. -/
structure Env where
  sinkOpenOk : Bool
  srcNewOk : Bool
  mpxOpenOk : Bool
  ctlPath : Bool
  ctlOpenOk : Bool
deriving DecidableEq, Repr

/-- Outcomes of the external calls of one run-loop iteration:
`fm_mpx_get_samples(...) >= 0`, `src_process(...) == 0`,
`ao_play(...) != 0`. -/
structure Iter where
  getSamplesOk : Bool
  srcProcessOk : Bool
  aoPlayOk : Bool
deriving DecidableEq, Repr

/-- An iteration outcome on which the run loop `break`s: a source
error/end-of-stream, a conversion failure, or a sink write failure. -/
def iterFatal (it : Iter) : Bool :=
  !it.getSamplesOk || !it.srcProcessOk || !it.aoPlayOk

/-- The `for(;;)` loop of `generate_mpx`, driven by the oracle list of
iteration outcomes. Returns the events of the executed iterations and
whether the loop exited via `break`. An exhausted oracle with no fatal
outcome means the loop is still running (`false`). -/
def runLoop (ctlOpen : Bool) : List Iter → List Ev × Bool
  | [] => ([], false)
  | it :: rest =>
    let pre : List Ev := if ctlOpen then [Ev.pollCtl] else []
    if iterFatal it then
      (pre, true)
    else
      let t := runLoop ctlOpen rest
      (pre ++ Ev.play :: t.1, t.2)

/-- `generate_mpx`: startup acquisitions in source order (sink via
`ao_open_live`, converter via `src_new`, source via `fm_mpx_open`,
optionally the control pipe), then the run loop. Returns the event trace
and the function's return value (`some 1` on an acquisition failure,
`some 0` when the loop exits via `break`, `none` while the loop is still
running). -/
def generate_mpx (env : Env) (iters : List Iter) : List Ev × Option Nat :=
  if !env.sinkOpenOk then
    ([], some 1)
  else if !env.srcNewOk then
    ([Ev.acquire .sink], some 1)
  else if !env.mpxOpenOk then
    ([Ev.acquire .sink, Ev.acquire .converter], some 1)
  else
    let startup := [Ev.acquire .sink, Ev.acquire .converter, Ev.acquire .source]
    let ctl : List Ev × Bool :=
      if env.ctlPath then
        if env.ctlOpenOk then ([Ev.acquire .control], true)
        else ([Ev.logCtlOpenFail], false)
      else ([], false)
    let loop := runLoop ctl.2 iters
    (startup ++ ctl.1 ++ loop.1, if loop.2 then some 0 else none)

/-- The tail of `main` after option parsing:
`int errcode = generate_mpx(...); terminate(errcode);`. When
`generate_mpx` returns, `terminate` runs with its return value; while the
loop is still running no teardown has happened. -/
def mainRun (env : Env) (iters : List Iter) : List Ev :=
  let g := generate_mpx env iters
  match g.2 with
  | some code => g.1 ++ terminate code
  | none => g.1

/-- The exit codes occurring in a trace, in order. -/
def exitCodes (tr : List Ev) : List Nat :=
  tr.filterMap fun e =>
    match e with
    | .exitWith n => some n
    | _ => none

/-- The resources acquired in a trace, in order. -/
def acquires (tr : List Ev) : List Resource :=
  tr.filterMap fun e =>
    match e with
    | .acquire r => some r
    | _ => none

/-- The resources released in a trace, in order. -/
def releases (tr : List Ev) : List Resource :=
  tr.filterMap fun e =>
    match e with
    | .release r => some r
    | _ => none

/-! ## Option parsing (the `getopt_long` loop of `main`) -/

/-- C `atoi`: skip leading whitespace, an optional sign, then the longest
prefix of decimal digits; a string with no digits at that point yields 0. -/
def atoi (s : String) : Int :=
  let cs := s.data.dropWhile fun c => c = ' ' || c = '\t' || c = '\n' ||
    c = '\r' || c = '\x0b' || c = '\x0c'
  let go : List Char → Int := fun l =>
    Int.ofNat ((l.takeWhile Char.isDigit).foldl (fun a c => a * 10 + (c.toNat - 48)) 0)
  match cs with
  | '-' :: rest => -(go rest)
  | '+' :: rest => go rest
  | _ => go cs

/-- Value of a hexadecimal digit, if any. -/
def hexVal (c : Char) : Option Nat :=
  if c.isDigit then some (c.toNat - 48)
  else if 'a' ≤ c ∧ c ≤ 'f' then some (c.toNat - 87)
  else if 'A' ≤ c ∧ c ≤ 'F' then some (c.toNat - 70)
  else none

/-- C `strtol(s, NULL, 16)` for the program-identifier option, restricted
to the shapes `main` feeds it: optional whitespace, optional sign, optional
`0x`/`0X` prefix, then hex digits; the result is then truncated to
`uint16_t`. -/
def strtol16 (s : String) : Int :=
  let cs := s.data.dropWhile fun c => c = ' ' || c = '\t' || c = '\n' ||
    c = '\r' || c = '\x0b' || c = '\x0c'
  let core : List Char → Nat := fun l =>
    let l' := match l with
      | '0' :: 'x' :: rest => rest
      | '0' :: 'X' :: rest => rest
      | other => other
    (l'.takeWhile (fun c => (hexVal c).isSome)).foldl
      (fun a c => a * 16 + ((hexVal c).getD 0)) 0
  match cs with
  | '-' :: rest => -(core rest : Int)
  | '+' :: rest => (core rest : Int)
  | _ => (core cs : Int)

/-- The recognized command-line options, each carrying its argument. The
alternate-frequency argument is modelled as the exact number of tenths of
a MHz the user wrote (the value of `(int)(10*atof(optarg))` — exact for
every one-fractional-digit input in and around the legal band). -/
inductive Opt
  | audio (s : String)
  | preemph (s : String)
  | mpx (s : String)
  | wait (s : String)
  | rds (s : String)
  | pgmid (s : String)
  | ps (s : String)
  | rt (s : String)
  | pty (s : String)
  | tp (s : String)
  | af (tenths : Int)
  | ctl (s : String)
  | help
deriving DecidableEq, Repr

/-- The option-configurable state of `main`, with its initial values. The
gain is stored exactly (the C `float mpx` only ever holds the integral
results of `atoi`, all exactly representable). -/
structure Config where
  audio_file : Option String := none
  control_pipe : Option String := none
  rds : Int := 1
  af_list : List Int := []
  ps : String := "mpxgen"
  rt : String := "mpxgen: FM Stereo and RDS encoder"
  pi_code : Int := 0x1234
  preemphasis_cutoff : Int := 0
  pty : Int := 0
  tp : Int := 0
  mpx : ℚ := 10
  wait : Int := 0
deriving DecidableEq, Repr

/-- One arm of the `switch` in the option loop. `fatal` (which prints and
calls `exit(1)`) is an `Except.error` carrying the exit code. An accepted
alternate frequency appends its encoded value `tenths - 875` to the list;
one outside 1..204 is fatal. -/
def processOpt (c : Config) : Opt → Except Nat Config
  | .audio s => .ok { c with audio_file := some s }
  | .preemph s =>
      if s = "eu" then .ok { c with preemphasis_cutoff := 3185 }
      else if s = "us" then .ok { c with preemphasis_cutoff := 2120 }
      else .ok { c with preemphasis_cutoff := atoi s }
  | .mpx s => .ok { c with mpx := (atoi s : ℚ) }
  | .wait s => .ok { c with wait := atoi s }
  | .rds s => .ok { c with rds := atoi s }
  | .pgmid s => .ok { c with pi_code := strtol16 s % 65536 }
  | .ps s => .ok { c with ps := s }
  | .rt s => .ok { c with rt := s }
  | .pty s => .ok { c with pty := atoi s }
  | .tp s => .ok { c with tp := atoi s }
  | .af tenths =>
      let v := tenths - 875
      if v < 1 ∨ v > 204 then .error 1
      else .ok { c with af_list := c.af_list ++ [v] }
  | .ctl s => .ok { c with control_pipe := some s }
  | .help => .error 1

/-- The whole `getopt_long` loop: options are processed left to right; the
first fatal one exits the process with code 1. -/
def parseArgs (opts : List Opt) : Except Nat Config :=
  opts.foldlM processOpt {}

/-- Whether an alternate-frequency argument (as tenths of a MHz) passes
the range check of `main` instead of hitting `fatal`. -/
def afAccepted (tenths : Int) : Bool :=
  match processOpt {} (.af tenths) with
  | .ok _ => true
  | .error _ => false

/-- The whole process: `main` parses the options (a `fatal` during
parsing exits with code 1 before `generate_mpx` is ever entered), then
runs `generate_mpx` and hands its return value to `terminate`. -/
def mainProgram (opts : List Opt) (env : Env) (iters : List Iter) : List Ev :=
  match parseArgs opts with
  | .error code => [Ev.exitWith code]
  | .ok _ => mainRun env iters

/-! ## Trace lemmas -/

theorem releases_append (a b : List Ev) : releases (a ++ b) = releases a ++ releases b := by
  simp [releases]

theorem acquires_append (a b : List Ev) : acquires (a ++ b) = acquires a ++ acquires b := by
  simp [acquires]

theorem exitCodes_append (a b : List Ev) : exitCodes (a ++ b) = exitCodes a ++ exitCodes b := by
  simp [exitCodes]

theorem mem_runLoop_fst (b : Bool) (l : List Iter) :
    ∀ e ∈ (runLoop b l).1, e = Ev.pollCtl ∨ e = Ev.play := by
  induction l with
  | nil =>
    intro e he
    simp [runLoop] at he
  | cons it rest ih =>
    intro e he
    by_cases hf : iterFatal it
    · cases b <;> simp [runLoop, hf] at he
      exact Or.inl he
    · cases b <;> simp [runLoop, hf] at he
      · rcases he with he | he
        · simp [he]
        · exact ih e he
      · rcases he with he | he | he
        · simp [he]
        · simp [he]
        · exact ih e he

theorem runLoop_fst_releases (b : Bool) (l : List Iter) :
    releases (runLoop b l).1 = [] := by
  rw [releases, List.filterMap_eq_nil_iff]
  intro e he
  rcases mem_runLoop_fst b l e he with h | h <;> simp [h]

theorem runLoop_fst_acquires (b : Bool) (l : List Iter) :
    acquires (runLoop b l).1 = [] := by
  rw [acquires, List.filterMap_eq_nil_iff]
  intro e he
  rcases mem_runLoop_fst b l e he with h | h <;> simp [h]

theorem runLoop_fst_exitCodes (b : Bool) (l : List Iter) :
    exitCodes (runLoop b l).1 = [] := by
  rw [exitCodes, List.filterMap_eq_nil_iff]
  intro e he
  rcases mem_runLoop_fst b l e he with h | h <;> simp [h]

theorem runLoop_snd_of_any_fatal (b : Bool) (l : List Iter)
    (h : l.any iterFatal = true) : (runLoop b l).2 = true := by
  induction l with
  | nil => simp at h
  | cons it rest ih =>
    by_cases hf : iterFatal it
    · cases b <;> simp [runLoop, hf]
    · have hf' : iterFatal it = false := by simpa using hf
      rw [List.any_cons, hf', Bool.false_or] at h
      simp [runLoop, hf']
      exact ih h

theorem runLoop_false_no_poll (l : List Iter) :
    Ev.pollCtl ∉ (runLoop false l).1 := by
  induction l with
  | nil => simp [runLoop]
  | cons it rest ih =>
    by_cases hf : iterFatal it <;> simp [runLoop, hf]
    exact ih

theorem generate_mpx_fst_ok (env : Env) (iters : List Iter)
    (h1 : env.sinkOpenOk = true) (h2 : env.srcNewOk = true) (h3 : env.mpxOpenOk = true) :
    (generate_mpx env iters).1 =
      [Ev.acquire .sink, Ev.acquire .converter, Ev.acquire .source] ++
        (if env.ctlPath then
          if env.ctlOpenOk then [Ev.acquire .control] else [Ev.logCtlOpenFail]
         else []) ++
        (runLoop (env.ctlPath && env.ctlOpenOk) iters).1 := by
  by_cases hp : env.ctlPath <;> by_cases ho : env.ctlOpenOk <;>
    simp [generate_mpx, h1, h2, h3, hp, ho]

theorem generate_mpx_snd_ok (env : Env) (iters : List Iter)
    (h1 : env.sinkOpenOk = true) (h2 : env.srcNewOk = true) (h3 : env.mpxOpenOk = true)
    (hf : iters.any iterFatal = true) :
    (generate_mpx env iters).2 = some 0 := by
  by_cases hp : env.ctlPath <;> by_cases ho : env.ctlOpenOk <;>
    simp [generate_mpx, h1, h2, h3, hp, ho] <;>
    exact runLoop_snd_of_any_fatal _ _ hf

theorem generate_mpx_fst_releases (env : Env) (iters : List Iter) :
    releases (generate_mpx env iters).1 = [] := by
  by_cases h1 : env.sinkOpenOk <;> by_cases h2 : env.srcNewOk <;>
    by_cases h3 : env.mpxOpenOk <;> by_cases hp : env.ctlPath <;>
    by_cases ho : env.ctlOpenOk <;>
    simp [generate_mpx, h1, h2, h3, hp, ho, releases_append, releases] <;>
    (intro a ha; rcases mem_runLoop_fst _ _ a ha with h | h <;> simp [h])

theorem generate_mpx_fst_exitCodes (env : Env) (iters : List Iter) :
    exitCodes (generate_mpx env iters).1 = [] := by
  by_cases h1 : env.sinkOpenOk <;> by_cases h2 : env.srcNewOk <;>
    by_cases h3 : env.mpxOpenOk <;> by_cases hp : env.ctlPath <;>
    by_cases ho : env.ctlOpenOk <;>
    simp [generate_mpx, h1, h2, h3, hp, ho, exitCodes_append, exitCodes] <;>
    (intro a ha; rcases mem_runLoop_fst _ _ a ha with h | h <;> simp [h])

/-! ## Claim C1 -/

/-- C1 as stated is false: on a run whose first iteration hits a sink
write failure, the loop exits and full teardown runs, but the one exit
code of the run is 0, not non-zero (`break` leads to `return 0`, and
`main` forwards that value to `terminate`). -/
theorem C1_counterexample :
    mainRun ⟨true, true, true, false, false⟩ [⟨true, true, false⟩] =
      [Ev.acquire .sink, Ev.acquire .converter, Ev.acquire .source,
       Ev.release .source, Ev.release .control, Ev.release .sink,
       Ev.shutdownSinkLib, Ev.release .converter, Ev.exitWith 0] ∧
    exitCodes (mainRun ⟨true, true, true, false, false⟩ [⟨true, true, false⟩]) = [0] ∧
    ¬ (∃ n, n ≠ 0 ∧ Ev.exitWith n ∈
        mainRun ⟨true, true, true, false, false⟩ [⟨true, true, false⟩]) := by
  refine ⟨by decide, by decide, ?_⟩
  rintro ⟨n, hn, hmem⟩
  have htr : mainRun ⟨true, true, true, false, false⟩ [⟨true, true, false⟩] =
      [Ev.acquire .sink, Ev.acquire .converter, Ev.acquire .source,
       Ev.release .source, Ev.release .control, Ev.release .sink,
       Ev.shutdownSinkLib, Ev.release .converter, Ev.exitWith 0] := by decide
  rw [htr] at hmem
  simp at hmem
  exact hn hmem

/-- C1 (amended): in every run with a successful startup in which a
streaming-fatal condition occurs (source error/end-of-stream, conversion
failure, or sink write failure), the run loop exits, `terminate` performs
the full teardown releasing each resource exactly once, and the process
exits with code 0 — not with a non-zero code. -/
theorem C1_streaming_fatal_teardown (env : Env) (iters : List Iter)
    (h1 : env.sinkOpenOk = true) (h2 : env.srcNewOk = true) (h3 : env.mpxOpenOk = true)
    (hf : iters.any iterFatal = true) :
    (generate_mpx env iters).2 = some 0 ∧
    mainRun env iters = (generate_mpx env iters).1 ++ terminate 0 ∧
    releases (mainRun env iters) = terminateReleases ∧
    exitCodes (mainRun env iters) = [0] := by
  have hsnd := generate_mpx_snd_ok env iters h1 h2 h3 hf
  have hmain : mainRun env iters = (generate_mpx env iters).1 ++ terminate 0 := by
    simp [mainRun, hsnd]
  refine ⟨hsnd, hmain, ?_, ?_⟩
  · rw [hmain, releases_append, generate_mpx_fst_releases]
    rfl
  · rw [hmain, exitCodes_append, generate_mpx_fst_exitCodes]
    rfl

/-- Witness for `C1_streaming_fatal_teardown` at a concrete run: startup
succeeds and the second iteration hits a source error. -/
theorem C1_witness :
    exitCodes (mainRun ⟨true, true, true, true, true⟩
      [⟨true, true, true⟩, ⟨false, true, true⟩]) = [0] :=
  (C1_streaming_fatal_teardown ⟨true, true, true, true, true⟩
    [⟨true, true, true⟩, ⟨false, true, true⟩] rfl rfl rfl (by decide)).2.2.2

/-! ## Claim C2 -/

/-- C2 as stated is false: a second termination request re-entering
`terminate` after the first invocation has performed all four release
actions (but not yet reached `exit`) releases every resource a second
time — the source, for instance, is released twice, violating the claimed
at-most-once bound. -/
theorem C2_counterexample :
    (reentrantReleases 4).count Resource.source = 2 ∧
    ¬ (∀ r : Resource, (reentrantReleases 4).count r ≤ 1) := by
  constructor
  · decide
  · intro h
    exact absurd (h Resource.source) (by decide)

/-- C2 (amended): `terminate` has no reentrancy or done-flag guard, so a
second termination request that re-enters it after the first `k` release
actions of the first invocation releases each of those `k` resources
exactly twice and each remaining resource exactly once. -/
theorem C2_terminate_not_idempotent (k : Nat) (hk : k ≤ 4) :
    ∀ r ∈ terminateReleases,
      (reentrantReleases k).count r =
        if r ∈ terminateReleases.take k then 2 else 1 := by
  interval_cases k <;> decide

/-- Witness for `C2_terminate_not_idempotent`: re-entry after the first
two releases releases the source twice. -/
theorem C2_witness :
    (reentrantReleases 2).count Resource.source =
      if Resource.source ∈ terminateReleases.take 2 then 2 else 1 :=
  C2_terminate_not_idempotent 2 (by decide) Resource.source (by decide)

/-! ## Claim C3 -/

/-- C3: the claim is right and the code is wrong. The per-call
output-frame limit handed to the converter (`src_data.output_frames =
OUTPUT_DATA_SIZE = 8192`) exceeds both the capacity of `resample_out`
(4096 float samples), the buffer receiving the converted samples, and the
4096 interleaved frames `dev_out` can hold. -/
theorem C3_output_frames_exceeds_buffers :
    src_output_frames > resample_out_capacity ∧
    src_output_frames > dev_out_frame_capacity ∧
    src_output_frames = 8192 ∧ resample_out_capacity = 4096 ∧
    dev_out_frame_capacity = 4096 := by
  decide

/-! ## Claim C4 -/

/-- C4 as stated is false: when opening the sink fails, nothing has been
acquired, yet `main` still hands the error code to `terminate`, which
unconditionally invokes the release actions for the source, the control
channel and the converter — resources that were never acquired. -/
theorem C4_counterexample :
    Ev.acquire .source ∉ mainRun ⟨false, true, true, false, false⟩ [] ∧
    Ev.acquire .converter ∉ mainRun ⟨false, true, true, false, false⟩ [] ∧
    Ev.acquire .control ∉ mainRun ⟨false, true, true, false, false⟩ [] ∧
    Ev.release .source ∈ mainRun ⟨false, true, true, false, false⟩ [] ∧
    Ev.release .converter ∈ mainRun ⟨false, true, true, false, false⟩ [] ∧
    Ev.release .control ∈ mainRun ⟨false, true, true, false, false⟩ [] ∧
    exitCodes (mainRun ⟨false, true, true, false, false⟩ []) = [1] := by
  decide

/-- C4 (amended): on any startup acquisition failure (sink open,
converter creation, or source open) the process does report the fatal
condition and exit with code 1, but the full teardown still runs: the
release sequence for all four resources is executed regardless of which
resources were actually acquired. -/
theorem C4_startup_failure (env : Env) (iters : List Iter)
    (h : env.sinkOpenOk = false ∨ env.srcNewOk = false ∨ env.mpxOpenOk = false) :
    (generate_mpx env iters).2 = some 1 ∧
    mainRun env iters = (generate_mpx env iters).1 ++ terminate 1 ∧
    releases (mainRun env iters) = terminateReleases ∧
    exitCodes (mainRun env iters) = [1] := by
  have hsnd : (generate_mpx env iters).2 = some 1 := by
    rcases h with h | h | h
    · simp [generate_mpx, h]
    · by_cases hs : env.sinkOpenOk <;> simp [generate_mpx, h, hs]
    · by_cases hs : env.sinkOpenOk <;> by_cases hc : env.srcNewOk <;>
        simp [generate_mpx, h, hs, hc]
  have hmain : mainRun env iters = (generate_mpx env iters).1 ++ terminate 1 := by
    simp [mainRun, hsnd]
  refine ⟨hsnd, hmain, ?_, ?_⟩
  · rw [hmain, releases_append, generate_mpx_fst_releases]
    rfl
  · rw [hmain, exitCodes_append, generate_mpx_fst_exitCodes]
    rfl

/-- Witness for `C4_startup_failure`: converter creation fails after the
sink was acquired; all four releases still run and the exit code is 1. -/
theorem C4_witness :
    releases (mainRun ⟨true, false, true, false, false⟩ []) = terminateReleases :=
  (C4_startup_failure ⟨true, false, true, false, false⟩ [] (Or.inr (Or.inl rfl))).2.2.1

/-! ## Claim C5 -/

/-- C5 as stated is false: on a fully successful startup with a control
path, the acquisition order is sink, converter, source, control channel —
not source first as claimed — and the release order is source, control
channel, sink, converter, which is not the reverse of the acquisition
order. -/
theorem C5_counterexample :
    acquires (mainRun ⟨true, true, true, true, true⟩ [⟨false, true, true⟩]) =
      [.sink, .converter, .source, .control] ∧
    releases (mainRun ⟨true, true, true, true, true⟩ [⟨false, true, true⟩]) =
      [.source, .control, .sink, .converter] ∧
    acquires (mainRun ⟨true, true, true, true, true⟩ [⟨false, true, true⟩]) ≠
      [.source, .sink, .converter, .control] ∧
    releases (mainRun ⟨true, true, true, true, true⟩ [⟨false, true, true⟩]) ≠
      (acquires (mainRun ⟨true, true, true, true, true⟩ [⟨false, true, true⟩])).reverse := by
  decide

/-- C5 (amended): the handles are acquired during startup in the fixed
order sink, converter, source, control channel, and every teardown
releases them in the fixed order source, control channel, sink,
converter; this release order is not the reverse of the acquisition
order. -/
theorem C5_acquire_release_orders (env : Env) (iters : List Iter)
    (h1 : env.sinkOpenOk = true) (h2 : env.srcNewOk = true) (h3 : env.mpxOpenOk = true)
    (h4 : env.ctlPath = true) (h5 : env.ctlOpenOk = true)
    (hf : iters.any iterFatal = true) :
    acquires (mainRun env iters) = [.sink, .converter, .source, .control] ∧
    releases (mainRun env iters) = [.source, .control, .sink, .converter] ∧
    releases (mainRun env iters) ≠ (acquires (mainRun env iters)).reverse := by
  have hsnd := generate_mpx_snd_ok env iters h1 h2 h3 hf
  have hmain : mainRun env iters = (generate_mpx env iters).1 ++ terminate 0 := by
    simp [mainRun, hsnd]
  have hacq : acquires (mainRun env iters) = [.sink, .converter, .source, .control] := by
    rw [hmain, acquires_append, generate_mpx_fst_ok env iters h1 h2 h3, h4, h5]
    simp [acquires_append, acquires, terminate]
    intro a ha
    rcases mem_runLoop_fst _ _ a ha with h | h <;> simp [h]
  have hrel : releases (mainRun env iters) = [.source, .control, .sink, .converter] := by
    rw [hmain, releases_append, generate_mpx_fst_releases]
    rfl
  refine ⟨hacq, hrel, ?_⟩
  rw [hacq, hrel]
  decide

/-- Witness for `C5_acquire_release_orders` at a concrete run whose first
iteration hits a source error. -/
theorem C5_witness :
    releases (mainRun ⟨true, true, true, true, true⟩ [⟨false, true, true⟩]) ≠
      (acquires (mainRun ⟨true, true, true, true, true⟩ [⟨false, true, true⟩])).reverse :=
  (C5_acquire_release_orders ⟨true, true, true, true, true⟩ [⟨false, true, true⟩]
    rfl rfl rfl rfl rfl (by decide)).2.2

/-! ## Claim C6 -/

/-- C6: an alternate-frequency argument (given as its exact count of
tenths of a MHz) is accepted exactly when it lies in 87.6–107.9 MHz,
i.e. when its encoding `tenths - 875` lies in 1..204; the out-of-range
input 108.0 hits `fatal` during option parsing, so the process exits with
code 1 before `generate_mpx` runs — the sink is never opened and no
streaming occurs. -/
theorem C6_af_validation :
    (∀ tenths : Int, afAccepted tenths = true ↔ (876 ≤ tenths ∧ tenths ≤ 1079)) ∧
    (∀ env iters, mainProgram [.af 1080] env iters = [Ev.exitWith 1]) ∧
    (∀ env iters, Ev.acquire .sink ∉ mainProgram [.af 1080] env iters ∧
      Ev.play ∉ mainProgram [.af 1080] env iters) := by
  refine ⟨?_, ?_, ?_⟩
  · intro t
    by_cases hb : (t - 875 < 1 ∨ t - 875 > 204)
    · simp [afAccepted, processOpt, hb]
      omega
    · simp [afAccepted, processOpt, hb]
      omega
  · intro env iters
    rfl
  · intro env iters
    have h : mainProgram [.af 1080] env iters = [Ev.exitWith 1] := rfl
    rw [h]
    exact ⟨by decide, by decide⟩

/-- Witness for `C6_af_validation` at a concrete run: with the single
option AF = 108.0 the process exits with code 1 immediately. -/
theorem C6_witness :
    mainProgram [.af 1080] ⟨true, true, true, false, false⟩ [] = [Ev.exitWith 1] :=
  C6_af_validation.2.1 ⟨true, true, true, false, false⟩ []

/-! ## Claim C7 -/

/-- C7: the format stage writes the identical value into both interleaved
channel slots of every output frame, the pre-truncation value scales
linearly with the gain (doubling the gain doubles it), and a zero input
sample yields 0 in both channels — in particular a whole source block of
zeros yields an all-zero stereo block. -/
theorem C7_format_stage (g x : ℚ) (hg : 0 ≤ g) :
    (∀ inbuf : List ℚ, ∀ p ∈ postprocess inbuf g, p.1 = p.2) ∧
    scaleSample x (2 * g) = 2 * scaleSample x g ∧
    postprocess (List.replicate DATA_SIZE 0) g = List.replicate DATA_SIZE (0, 0) := by
  refine ⟨?_, ?_, ?_⟩
  · intro inbuf p hp
    simp [postprocess] at hp
    obtain ⟨y, hy, hp⟩ := hp
    rw [← hp]
  · unfold scaleSample
    ring
  · simp [postprocess, List.map_replicate, scaleSample, truncToShort]

/-- Witness for `C7_format_stage` at gain 100 and sample 5. -/
theorem C7_witness :
    scaleSample 5 (2 * 100) = 2 * scaleSample 5 100 :=
  (C7_format_stage 100 5 (by norm_num)).2.1

/-! ## Claim C8 -/

/-- C8: when a control path is supplied but the control channel fails to
open, the failure is only logged: the control channel is never acquired,
no control poll ever happens afterwards, and a run whose first iteration
succeeds performs a sink write — the loop completes a full iteration
producing sink output. -/
theorem C8_ctl_open_failure_nonfatal (env : Env) (it : Iter) (rest : List Iter)
    (h1 : env.sinkOpenOk = true) (h2 : env.srcNewOk = true) (h3 : env.mpxOpenOk = true)
    (h4 : env.ctlPath = true) (h5 : env.ctlOpenOk = false)
    (hit : iterFatal it = false) :
    Ev.logCtlOpenFail ∈ (generate_mpx env (it :: rest)).1 ∧
    Ev.acquire .control ∉ (generate_mpx env (it :: rest)).1 ∧
    Ev.pollCtl ∉ (generate_mpx env (it :: rest)).1 ∧
    Ev.play ∈ (generate_mpx env (it :: rest)).1 := by
  have hfst := generate_mpx_fst_ok env (it :: rest) h1 h2 h3
  rw [h4, h5] at hfst
  simp at hfst
  refine ⟨?_, ?_, ?_, ?_⟩
  · rw [hfst]
    simp
  · rw [hfst]
    simp
    intro hmem
    rcases mem_runLoop_fst _ _ _ hmem with h' | h' <;> exact absurd h' (by decide)
  · rw [hfst]
    simp
    exact runLoop_false_no_poll (it :: rest)
  · rw [hfst]
    simp [runLoop, hit]

/-- Witness for `C8_ctl_open_failure_nonfatal` at a concrete run with a
successful first iteration. -/
theorem C8_witness :
    Ev.play ∈ (generate_mpx ⟨true, true, true, true, false⟩ [⟨true, true, true⟩]).1 :=
  (C8_ctl_open_failure_nonfatal ⟨true, true, true, true, false⟩ ⟨true, true, true⟩ []
    rfl rfl rfl rfl rfl (by decide)).2.2.2

/-! ## Claim C9 -/

/-- C9 as stated is false: a digit-free gain argument is not rejected —
`atoi` yields 0, option processing succeeds with gain 0 (likewise for the
pre-emphasis option), no fatal configuration error is reported, and the
process still enters the run loop and performs a sink write. -/
theorem C9_counterexample :
    parseArgs [.mpx "abc"] = .ok { mpx := 0 } ∧
    parseArgs [.preemph "xyz"] = .ok { preemphasis_cutoff := 0 } ∧
    Ev.play ∈ mainProgram [.mpx "abc"] ⟨true, true, true, false, false⟩
      [⟨true, true, true⟩, ⟨false, true, true⟩] := by
  refine ⟨rfl, rfl, ?_⟩
  have h : mainProgram [.mpx "abc"] ⟨true, true, true, false, false⟩
      [⟨true, true, true⟩, ⟨false, true, true⟩] =
    mainRun ⟨true, true, true, false, false⟩
      [⟨true, true, true⟩, ⟨false, true, true⟩] := rfl
  rw [h]
  decide

/-- C9 (amended): the gain and pre-emphasis options perform no numeric
validation: any argument string (for pre-emphasis, any string other than
the two region names) is accepted via `atoi` — which yields 0 on a string
with no leading digits — and option processing never reports an error for
these two options. -/
theorem C9_no_numeric_validation (c : Config) (s : String)
    (hs1 : s ≠ "eu") (hs2 : s ≠ "us") :
    processOpt c (.mpx s) = .ok { c with mpx := (atoi s : ℚ) } ∧
    processOpt c (.preemph s) = .ok { c with preemphasis_cutoff := atoi s } :=
  ⟨rfl, by simp [processOpt, hs1, hs2]⟩

/-- Witness for `C9_no_numeric_validation` at the malformed argument
string. -/
theorem C9_witness :
    processOpt {} (.mpx "abc") = .ok { mpx := (atoi "abc" : ℚ) } :=
  (C9_no_numeric_validation {} "abc" (by decide) (by decide)).1

/-! ## Claim C10 -/

theorem except_bind_ok {α β γ : Type} (a : α) (g : α → Except γ β) :
    (Except.ok a >>= g : Except γ β) = g a := rfl

theorem except_bind_error {α β γ : Type} (e : γ) (g : α → Except γ β) :
    ((Except.error e : Except γ α) >>= g) = Except.error e := rfl

theorem processOpt_mpx_eq (c c' : Config) (o : Opt) (ho : ∀ s, o ≠ Opt.mpx s)
    (h : processOpt c o = .ok c') : c'.mpx = c.mpx := by
  cases o with
  | audio s =>
    simp [processOpt] at h
    rw [← h]
  | preemph s =>
    by_cases e1 : s = "eu"
    · simp [processOpt, e1] at h
      rw [← h]
    · by_cases e2 : s = "us"
      · simp [processOpt, e1, e2] at h
        rw [← h]
      · simp [processOpt, e1, e2] at h
        rw [← h]
  | mpx s => exact absurd rfl (ho s)
  | wait s =>
    simp [processOpt] at h
    rw [← h]
  | rds s =>
    simp [processOpt] at h
    rw [← h]
  | pgmid s =>
    simp [processOpt] at h
    rw [← h]
  | ps s =>
    simp [processOpt] at h
    rw [← h]
  | rt s =>
    simp [processOpt] at h
    rw [← h]
  | pty s =>
    simp [processOpt] at h
    rw [← h]
  | tp s =>
    simp [processOpt] at h
    rw [← h]
  | af t =>
    by_cases hb : (t - 875 < 1 ∨ t - 875 > 204)
    · simp [processOpt, hb] at h
    · simp [processOpt, hb] at h
      rw [← h]
  | ctl s =>
    simp [processOpt] at h
    rw [← h]
  | help => simp [processOpt] at h

theorem foldlM_processOpt_mpx (opts : List Opt) :
    ∀ c c' : Config, (∀ s, Opt.mpx s ∉ opts) →
      opts.foldlM processOpt c = .ok c' → c'.mpx = c.mpx := by
  induction opts with
  | nil =>
    intro c c' _ h
    have h' : (Except.ok c : Except Nat Config) = .ok c' := h
    cases h'
    rfl
  | cons o rest ih =>
    intro c c' hno h
    rw [List.foldlM_cons] at h
    cases hp : processOpt c o with
    | error e =>
      rw [hp, except_bind_error] at h
      cases h
    | ok c1 =>
      rw [hp, except_bind_ok] at h
      have h1 := ih c1 c' (fun s hs => hno s (List.mem_cons_of_mem _ hs)) h
      have h2 := processOpt_mpx_eq c c1 o
        (fun s he => hno s (by rw [he]; exact List.mem_cons_self _ _)) hp
      rw [h1, h2]

/-- C10: when no gain option is given the gain keeps its initial value 10
(not 100) — parsing any option list without a gain option leaves it at
10 — and the format stage then multiplies each rescaled sample by
10/100 = 0.1, one tenth of the amplitude produced at gain 100. -/
theorem C10_default_gain :
    ({} : Config).mpx = 10 ∧
    (∀ (opts : List Opt) (c : Config), (∀ s, Opt.mpx s ∉ opts) →
      parseArgs opts = .ok c → c.mpx = 10) ∧
    (∀ x : ℚ, scaleSample x 10 = scaleSample x 100 / 10) := by
  refine ⟨rfl, ?_, ?_⟩
  · intro opts c hno h
    rw [parseArgs] at h
    rw [foldlM_processOpt_mpx opts {} c hno h]
  · intro x
    unfold scaleSample
    ring

/-- Witness for `C10_default_gain`: a command line with only an audio
option leaves the gain at 10. -/
theorem C10_witness :
    ({ audio_file := some "f" } : Config).mpx = 10 :=
  C10_default_gain.2.1 [Opt.audio "f"] { audio_file := some "f" }
    (fun s hs => by simp at hs) rfl

end MpxGen
